import Mathlib

/-!
Shallow embedding of `src/kolosal_backend/pipeline/knowledge_pipeline.py`.

The repository's single source file is the function `knowledge_pipeline`,
which drives an iterative branching-and-accumulation loop over polars
DataFrames.  We embed:

  * polars DataFrames as lists of named columns of `Cell` values; the
    dict constructor, `with_columns` with a `pl.Series`, and `vstack`
    raise shape/schema errors exactly when the real library does (a
    series whose length is neither the frame height nor 1 — polars
    broadcasts a unit-length series instead of raising — a dict whose
    lists have unequal lengths, frames with different column names);
    dtypes are abstracted away, only column names and cell values are
    modelled;
  * the external collaborators (`generate_conversation_starter`,
    `build_chat_histories`, `generate_conversations_response`,
    `comparison_score`, `generate_next_conversation`,
    `build_knowledge_instruction`) as an opaque bundle of pure
    functions — the spec excludes them as external capability
    providers, so every theorem quantifies over the bundle;
  * Python's 7-ary `zip` (which truncates to the shortest input) as
    nested `List.zip`;
  * the `KnowledgeParameter` fields exactly as the pipeline reads them.

The pipeline additionally records, as ghost instrumentation, the
argument tuple of each `generate_next_conversation` call; the log does
not feed back into the data flow.
-/

structure Turn where
  role : String
  content : String
deriving DecidableEq, Repr

abbrev ChatHistory := List Turn

/-- A polars cell: the pipeline stores chat histories, strings and
integer scores in its frames. -/
inductive Cell where
  | chat (h : ChatHistory)
  | str (s : String)
  | int (n : Int)
deriving DecidableEq, Repr

def Cell.asChat : Cell → ChatHistory
  | .chat h => h
  | _ => []

def Cell.asStr : Cell → String
  | .str s => s
  | _ => ""

/-- A polars DataFrame: named columns of cells. -/
structure DataFrame where
  cols : List (String × List Cell)
deriving DecidableEq, Repr

def DataFrame.columns (df : DataFrame) : List String :=
  df.cols.map Prod.fst

def DataFrame.height (df : DataFrame) : Nat :=
  match df.cols with
  | [] => 0
  | c :: _ => c.2.length

/-- Column extraction, `df["name"].to_list()`. -/
def DataFrame.col (df : DataFrame) (name : String) : List Cell :=
  match df.cols.find? (fun c => c.1 == name) with
  | some c => c.2
  | none => []

/-- Replace a column in place if the name exists, else append it at the
end — polars `with_columns` placement. -/
def setCol : List (String × List Cell) → String → List Cell → List (String × List Cell)
  | [], name, vals => [(name, vals)]
  | c :: cs, name, vals =>
    if c.1 = name then (name, vals) :: cs else c :: setCol cs name vals

/-- `df.with_columns(pl.Series(name, vals))`: a series of the frame's
height is added as given; a unit-length series is silently broadcast
to the frame height; any other length raises a ShapeError. -/
def DataFrame.withColumn (df : DataFrame) (name : String) (vals : List Cell) :
    Except String DataFrame :=
  if vals.length = df.height then .ok ⟨setCol df.cols name vals⟩
  else
    match vals with
    | [v] => .ok ⟨setCol df.cols name (List.replicate df.height v)⟩
    | _ => .error "ShapeError: unable to add a column of a different length"

/-- `df.vstack(other)`: polars requires the schemas to match. -/
def DataFrame.vstack (df other : DataFrame) : Except String DataFrame :=
  if df.columns = other.columns then
    .ok ⟨List.zipWith (fun c d => (c.1, c.2 ++ d.2)) df.cols other.cols⟩
  else .error "SchemaError: cannot vstack frames with different schemas"

/-- `pl.DataFrame({"chat_history": chs, "document": docs})`: the dict
constructor raises when the lists have different lengths. -/
def dictFrame (chs : List ChatHistory) (docs : List String) :
    Except String DataFrame :=
  if chs.length = docs.length then
    .ok ⟨[("chat_history", chs.map Cell.chat), ("document", docs.map Cell.str)]⟩
  else .error "ShapeError: could not create a new DataFrame"

/-- The fields of `KnowledgeParameter` as `knowledge_pipeline` reads
them (the parameter class itself is outside the embedded file; model
handles are opaque strings). -/
structure KnowledgeParameter where
  documents : List String
  conversation_starter_instruction : String
  conversation_personalization_instruction : String
  conversation_starter_count : Nat
  max_conversations : Nat
  slm_model : String
  llm_model : String
deriving DecidableEq, Repr

/-- The external collaborators called by the pipeline, as opaque pure
functions; the spec treats them as excluded capability providers, so
theorems quantify over this bundle. -/
structure Collaborators where
  build_knowledge_instruction : String → String → String
  generate_conversation_starter : String → Nat → String → Option String → List ChatHistory
  build_chat_histories : String → List String → List ChatHistory → List ChatHistory
  generate_conversations_response : String → List ChatHistory → List String
  comparison_score : String → List ChatHistory → List String → List String → List Int
  generate_next_conversation :
    String → List ChatHistory → List String → List String → List String →
      List String × List String

/-- Ghost record of one `generate_next_conversation` call: the argument
tuple the pipeline passed. -/
structure ExpanderCall where
  llm : String
  chat_histories : List ChatHistory
  responses : List String
  documents : List String
  document_bank : List String
deriving DecidableEq, Repr

/-- The initial `augmented_data` frame (five declared columns, empty). -/
def augmentedInit : DataFrame :=
  ⟨[("chat_history", []), ("document", []), ("slm_response", []),
    ("llm_response", []), ("scores", [])]⟩

/-- The initial `temproary_augmented_data` frame (two declared columns,
empty). -/
def workingInit : DataFrame :=
  ⟨[("chat_history", []), ("document", [])]⟩

/-- Body of the seeding loop (source lines 46-60): one document's
conversation starters are generated and vstacked onto the working
frame. -/
def seedStep (C : Collaborators) (p : KnowledgeParameter)
    (temp : DataFrame) (document : String) : Except String DataFrame := do
  let built := C.build_knowledge_instruction p.conversation_starter_instruction document
  let chat_histories_document :=
    C.generate_conversation_starter p.llm_model p.conversation_starter_count built none
  let document_data := List.replicate chat_histories_document.length document
  let frame ← dictFrame chat_histories_document document_data
  temp.vstack frame

/-- Step 1 of the pipeline (source lines 45-60): seed the working frame
from every document of the bank, in order. -/
def seedWorking (C : Collaborators) (p : KnowledgeParameter) :
    Except String DataFrame :=
  p.documents.foldlM (seedStep C p) workingInit

/-- Python's 7-ary `zip`, which truncates to the shortest input. -/
def zip7 {α₁ α₂ α₃ α₄ α₅ α₆ α₇ : Type}
    (a1 : List α₁) (a2 : List α₂) (a3 : List α₃) (a4 : List α₄)
    (a5 : List α₅) (a6 : List α₆) (a7 : List α₇) :
    List (α₁ × α₂ × α₃ × α₄ × α₅ × α₆ × α₇) :=
  a1.zip (a2.zip (a3.zip (a4.zip (a5.zip (a6.zip a7)))))

/-- One iteration of the round loop (source lines 63-136): generate SLM
and LLM responses, record them, score, record the scores, call the
continuation expander on each track, vstack the completed frame onto
`augmented`, and rebuild the working frame from the expanded records.
The returned list logs the two expander call argument tuples. -/
def roundStep (C : Collaborators) (p : KnowledgeParameter)
    (augmented temp : DataFrame) :
    Except String (DataFrame × DataFrame × List ExpanderCall) := do
  let built_chat_histories :=
    C.build_chat_histories p.conversation_personalization_instruction
      ((temp.col "document").map Cell.asStr)
      ((temp.col "chat_history").map Cell.asChat)
  let slm_responses := C.generate_conversations_response p.slm_model built_chat_histories
  let llm_responses := C.generate_conversations_response p.llm_model built_chat_histories
  let temp ← temp.withColumn "slm_response" (slm_responses.map Cell.str)
  let temp ← temp.withColumn "llm_response" (llm_responses.map Cell.str)
  let scores :=
    C.comparison_score p.llm_model ((temp.col "chat_history").map Cell.asChat)
      llm_responses slm_responses
  let temp ← temp.withColumn "scores" (scores.map Cell.int)
  let slmCall : ExpanderCall :=
    ⟨p.llm_model, (temp.col "chat_history").map Cell.asChat, slm_responses,
      (temp.col "document").map Cell.asStr, p.documents⟩
  let (slm_questions, slm_documents) :=
    C.generate_next_conversation slmCall.llm slmCall.chat_histories
      slmCall.responses slmCall.documents slmCall.document_bank
  let llmCall : ExpanderCall :=
    ⟨p.slm_model, (temp.col "chat_history").map Cell.asChat, slm_responses,
      (temp.col "document").map Cell.asStr, p.documents⟩
  let (llm_questions, llm_documents) :=
    C.generate_next_conversation llmCall.llm llmCall.chat_histories
      llmCall.responses llmCall.documents llmCall.document_bank
  let tuples :=
    zip7 ((temp.col "chat_history").map Cell.asChat) slm_responses llm_responses
      slm_questions llm_questions slm_documents llm_documents
  let generated_chat_histories := tuples.flatMap (fun (ch, sr, lr, sq, lq, _, _) =>
    [ch ++ [⟨"assistant", sr⟩, ⟨"user", sq⟩],
     ch ++ [⟨"assistant", lr⟩, ⟨"user", lq⟩]])
  let generated_chat_documents := tuples.flatMap (fun (_, _, _, _, _, sd, ld) => [sd, ld])
  let augmented ← augmented.vstack temp
  let temp ← dictFrame generated_chat_histories generated_chat_documents
  .ok (augmented, temp, [slmCall, llmCall])

/-- The round loop (source line 63): `max_conversations` iterations of
`roundStep`, threading the accumulator and the working frame and
concatenating the expander-call logs. -/
def runRounds (C : Collaborators) (p : KnowledgeParameter) :
    Nat → DataFrame → DataFrame → Except String (DataFrame × DataFrame × List ExpanderCall)
  | 0, augmented, temp => .ok (augmented, temp, [])
  | n + 1, augmented, temp => do
    let (augmented1, temp1, calls1) ← roundStep C p augmented temp
    let (augmented2, temp2, calls2) ← runRounds C p n augmented1 temp1
    .ok (augmented2, temp2, calls1 ++ calls2)

/-- The full pipeline state after seeding and all rounds: the
accumulated `augmented_data`, the final `temproary_augmented_data`, and
the expander-call log. -/
def pipelineState (C : Collaborators) (p : KnowledgeParameter) :
    Except String (DataFrame × DataFrame × List ExpanderCall) := do
  let temp ← seedWorking C p
  runRounds C p p.max_conversations augmentedInit temp

/-- `knowledge_pipeline` (source lines 12-138): seeds, loops, and
returns `temproary_augmented_data` — the working frame, not the
accumulator. -/
def knowledge_pipeline (C : Collaborators) (p : KnowledgeParameter) :
    Except String DataFrame := do
  let (_, temp, _) ← pipelineState C p
  .ok temp

/-! ## Shape and alignment predicates -/

/-- The shape of every working (`temproary_augmented_data`) frame: the
two declared columns, equal heights. -/
def WorkingShape (df : DataFrame) : Prop :=
  ∃ hs ds, df = ⟨[("chat_history", hs), ("document", ds)]⟩ ∧ hs.length = ds.length

/-- The shape of every accumulator (`augmented_data`) frame: the five
declared columns, equal heights. -/
def AugShape (df : DataFrame) : Prop :=
  ∃ c1 c2 c3 c4 c5,
    df = ⟨[("chat_history", c1), ("document", c2), ("slm_response", c3),
           ("llm_response", c4), ("scores", c5)]⟩ ∧
    c2.length = c1.length ∧ c3.length = c1.length ∧
    c4.length = c1.length ∧ c5.length = c1.length

/-- Every collaborator returns arrays of the same length as its input
batch (the spec's positional-alignment contract). -/
def LengthAligned (C : Collaborators) : Prop :=
  (∀ i ds chs, (C.build_chat_histories i ds chs).length = chs.length) ∧
  (∀ m chs, (C.generate_conversations_response m chs).length = chs.length) ∧
  (∀ m chs lr sr, (C.comparison_score m chs lr sr).length = chs.length) ∧
  (∀ m chs rs ds bank,
    (C.generate_next_conversation m chs rs ds bank).1.length = chs.length ∧
    (C.generate_next_conversation m chs rs ds bank).2.length = chs.length)

/-- The continuation expander only proposes grounding documents drawn
from the supplied document bank. -/
def DocsFromBank (C : Collaborators) : Prop :=
  ∀ m chs rs ds bank, ∀ d ∈ (C.generate_next_conversation m chs rs ds bank).2, d ∈ bank

/-! ## Per-round intermediate values

These name the deterministic intermediate values of one `roundStep` on
a working frame with columns `hs` (chat histories) and `ds`
(documents), so theorems can speak about them. -/

def roundBuilt (C : Collaborators) (p : KnowledgeParameter) (hs ds : List Cell) :
    List ChatHistory :=
  C.build_chat_histories p.conversation_personalization_instruction
    (ds.map Cell.asStr) (hs.map Cell.asChat)

def roundSlmR (C : Collaborators) (p : KnowledgeParameter) (hs ds : List Cell) :
    List String :=
  C.generate_conversations_response p.slm_model (roundBuilt C p hs ds)

def roundLlmR (C : Collaborators) (p : KnowledgeParameter) (hs ds : List Cell) :
    List String :=
  C.generate_conversations_response p.llm_model (roundBuilt C p hs ds)

def roundScores (C : Collaborators) (p : KnowledgeParameter) (hs ds : List Cell) :
    List Int :=
  C.comparison_score p.llm_model (hs.map Cell.asChat)
    (roundLlmR C p hs ds) (roundSlmR C p hs ds)

def roundSlmQD (C : Collaborators) (p : KnowledgeParameter) (hs ds : List Cell) :
    List String × List String :=
  C.generate_next_conversation p.llm_model (hs.map Cell.asChat)
    (roundSlmR C p hs ds) (ds.map Cell.asStr) p.documents

def roundLlmQD (C : Collaborators) (p : KnowledgeParameter) (hs ds : List Cell) :
    List String × List String :=
  C.generate_next_conversation p.slm_model (hs.map Cell.asChat)
    (roundSlmR C p hs ds) (ds.map Cell.asStr) p.documents

def roundTuples (C : Collaborators) (p : KnowledgeParameter) (hs ds : List Cell) :
    List (ChatHistory × String × String × String × String × String × String) :=
  zip7 (hs.map Cell.asChat) (roundSlmR C p hs ds) (roundLlmR C p hs ds)
    (roundSlmQD C p hs ds).1 (roundLlmQD C p hs ds).1
    (roundSlmQD C p hs ds).2 (roundLlmQD C p hs ds).2

def roundNewChats (C : Collaborators) (p : KnowledgeParameter) (hs ds : List Cell) :
    List ChatHistory :=
  (roundTuples C p hs ds).flatMap (fun (ch, sr, lr, sq, lq, _, _) =>
    [ch ++ [⟨"assistant", sr⟩, ⟨"user", sq⟩],
     ch ++ [⟨"assistant", lr⟩, ⟨"user", lq⟩]])

def roundNewDocs (C : Collaborators) (p : KnowledgeParameter) (hs ds : List Cell) :
    List String :=
  (roundTuples C p hs ds).flatMap (fun (_, _, _, _, _, sd, ld) => [sd, ld])

/-- The two expander-call records one round logs. -/
def roundCalls (C : Collaborators) (p : KnowledgeParameter) (hs ds : List Cell) :
    List ExpanderCall :=
  [⟨p.llm_model, hs.map Cell.asChat, roundSlmR C p hs ds, ds.map Cell.asStr, p.documents⟩,
   ⟨p.slm_model, hs.map Cell.asChat, roundSlmR C p hs ds, ds.map Cell.asStr, p.documents⟩]

/-- The accumulator after one round vstacks the completed working
frame. -/
def roundAugOut (C : Collaborators) (p : KnowledgeParameter)
    (a1 a2 a3 a4 a5 hs ds : List Cell) : DataFrame :=
  ⟨[("chat_history", a1 ++ hs), ("document", a2 ++ ds),
    ("slm_response", a3 ++ (roundSlmR C p hs ds).map Cell.str),
    ("llm_response", a4 ++ (roundLlmR C p hs ds).map Cell.str),
    ("scores", a5 ++ (roundScores C p hs ds).map Cell.int)]⟩

/-- The working frame one round hands to the next. -/
def roundTempOut (C : Collaborators) (p : KnowledgeParameter) (hs ds : List Cell) :
    DataFrame :=
  ⟨[("chat_history", (roundNewChats C p hs ds).map Cell.chat),
    ("document", (roundNewDocs C p hs ds).map Cell.str)]⟩

/-! ## List helper lemmas -/

lemma flatMap_pair_length {α β : Type} (F : α → List β)
    (hF : ∀ t, (F t).length = 2) (l : List α) :
    (l.flatMap F).length = 2 * l.length := by
  induction l with
  | nil => rfl
  | cons a l ih =>
    simp only [List.flatMap_cons, List.length_append, ih, hF, List.length_cons]
    omega

lemma flatMap_pair_getElem {α β : Type} (F : α → List β) (f g : α → β)
    (hF : ∀ t, F t = [f t, g t]) (l : List α) (i : Nat) :
    (l.flatMap F)[2 * i]? = l[i]?.map f ∧ (l.flatMap F)[2 * i + 1]? = l[i]?.map g := by
  induction l generalizing i with
  | nil => simp
  | cons a l ih =>
    cases i with
    | zero => simp [hF a, List.flatMap_cons]
    | succ i =>
      have h2 : 2 * (i + 1) = 2 * i + 1 + 1 := by ring
      have e : F a ++ l.flatMap F = f a :: g a :: l.flatMap F := by rw [hF a]; rfl
      rw [List.flatMap_cons, e, h2]
      constructor
      · rw [List.getElem?_cons_succ, List.getElem?_cons_succ, List.getElem?_cons_succ]
        exact (ih i).1
      · rw [List.getElem?_cons_succ, List.getElem?_cons_succ, List.getElem?_cons_succ]
        exact (ih i).2

lemma zip_getElem_some {α β : Type} {as : List α} {bs : List β} {i : Nat} {x : α} {y : β}
    (ha : as[i]? = some x) (hb : bs[i]? = some y) :
    (as.zip bs)[i]? = some (x, y) :=
  List.getElem?_zip_eq_some.mpr ⟨ha, hb⟩

lemma zip7_getElem_some {α₁ α₂ α₃ α₄ α₅ α₆ α₇ : Type}
    {a1 : List α₁} {a2 : List α₂} {a3 : List α₃} {a4 : List α₄}
    {a5 : List α₅} {a6 : List α₆} {a7 : List α₇} {i : Nat}
    {x1 : α₁} {x2 : α₂} {x3 : α₃} {x4 : α₄} {x5 : α₅} {x6 : α₆} {x7 : α₇}
    (h1 : a1[i]? = some x1) (h2 : a2[i]? = some x2) (h3 : a3[i]? = some x3)
    (h4 : a4[i]? = some x4) (h5 : a5[i]? = some x5) (h6 : a6[i]? = some x6)
    (h7 : a7[i]? = some x7) :
    (zip7 a1 a2 a3 a4 a5 a6 a7)[i]? = some (x1, x2, x3, x4, x5, x6, x7) :=
  zip_getElem_some h1 (zip_getElem_some h2 (zip_getElem_some h3 (zip_getElem_some h4
    (zip_getElem_some h5 (zip_getElem_some h6 h7)))))

lemma zip7_length {α₁ α₂ α₃ α₄ α₅ α₆ α₇ : Type}
    (a1 : List α₁) (a2 : List α₂) (a3 : List α₃) (a4 : List α₄)
    (a5 : List α₅) (a6 : List α₆) (a7 : List α₇) :
    (zip7 a1 a2 a3 a4 a5 a6 a7).length =
      min a1.length (min a2.length (min a3.length (min a4.length
        (min a5.length (min a6.length a7.length))))) := by
  unfold zip7
  simp [List.length_zip]

lemma zip7_mem {α₁ α₂ α₃ α₄ α₅ α₆ α₇ : Type}
    {a1 : List α₁} {a2 : List α₂} {a3 : List α₃} {a4 : List α₄}
    {a5 : List α₅} {a6 : List α₆} {a7 : List α₇}
    {t : α₁ × α₂ × α₃ × α₄ × α₅ × α₆ × α₇}
    (h : t ∈ zip7 a1 a2 a3 a4 a5 a6 a7) :
    t.1 ∈ a1 ∧ t.2.1 ∈ a2 ∧ t.2.2.1 ∈ a3 ∧ t.2.2.2.1 ∈ a4 ∧
      t.2.2.2.2.1 ∈ a5 ∧ t.2.2.2.2.2.1 ∈ a6 ∧ t.2.2.2.2.2.2 ∈ a7 := by
  obtain ⟨x1, x2, x3, x4, x5, x6, x7⟩ := t
  unfold zip7 at h
  obtain ⟨m1, h⟩ := List.of_mem_zip h
  obtain ⟨m2, h⟩ := List.of_mem_zip h
  obtain ⟨m3, h⟩ := List.of_mem_zip h
  obtain ⟨m4, h⟩ := List.of_mem_zip h
  obtain ⟨m5, h⟩ := List.of_mem_zip h
  obtain ⟨m6, m7⟩ := List.of_mem_zip h
  exact ⟨m1, m2, m3, m4, m5, m6, m7⟩

/-! ## Frame computation lemmas -/

lemma col2_chat (hs ds : List Cell) :
    (DataFrame.mk [("chat_history", hs), ("document", ds)]).col "chat_history" = hs := rfl

lemma col2_doc (hs ds : List Cell) :
    (DataFrame.mk [("chat_history", hs), ("document", ds)]).col "document" = ds := rfl

lemma roundNewChats_length (C : Collaborators) (p : KnowledgeParameter) (hs ds : List Cell) :
    (roundNewChats C p hs ds).length = 2 * (roundTuples C p hs ds).length := by
  unfold roundNewChats
  exact flatMap_pair_length _ (fun t => by obtain ⟨c, sr, lr, sq, lq, sd, ld⟩ := t; rfl) _

lemma roundNewDocs_length (C : Collaborators) (p : KnowledgeParameter) (hs ds : List Cell) :
    (roundNewDocs C p hs ds).length = 2 * (roundTuples C p hs ds).length := by
  unfold roundNewDocs
  exact flatMap_pair_length _ (fun t => by obtain ⟨c, sr, lr, sq, lq, sd, ld⟩ := t; rfl) _

/-- Under the three response/score length conditions, one `roundStep`
on explicitly-shaped frames computes to the explicit outputs. -/
lemma roundStep_eq_ok (C : Collaborators) (p : KnowledgeParameter)
    (a1 a2 a3 a4 a5 hs ds : List Cell)
    (hsr : (roundSlmR C p hs ds).length = hs.length)
    (hlr : (roundLlmR C p hs ds).length = hs.length)
    (hsc : (roundScores C p hs ds).length = hs.length) :
    roundStep C p
      ⟨[("chat_history", a1), ("document", a2), ("slm_response", a3),
        ("llm_response", a4), ("scores", a5)]⟩
      ⟨[("chat_history", hs), ("document", ds)]⟩ =
      .ok (roundAugOut C p a1 a2 a3 a4 a5 hs ds, roundTempOut C p hs ds,
        roundCalls C p hs ds) := by
  have hlen : (roundNewChats C p hs ds).length = (roundNewDocs C p hs ds).length := by
    rw [roundNewChats_length, roundNewDocs_length]
  simp only [roundSlmR, roundLlmR, roundScores, roundBuilt] at hsr hlr hsc
  simp only [roundNewChats, roundNewDocs, roundTuples, roundSlmQD, roundLlmQD,
    roundScores, roundSlmR, roundLlmR, roundBuilt] at hlen
  simp only [roundStep, roundAugOut, roundTempOut, roundCalls, roundNewChats,
    roundNewDocs, roundTuples, roundSlmQD, roundLlmQD, roundScores, roundSlmR,
    roundLlmR, roundBuilt]
  simp [DataFrame.withColumn, DataFrame.height, DataFrame.col, DataFrame.columns,
    DataFrame.vstack, dictFrame, setCol, Bind.bind, Except.bind, hsr, hlr, hsc, hlen]

/-- Column lookups on the intermediate four- and five-column frames. -/
lemma col4_chat (hs ds v1 v2 : List Cell) :
    (DataFrame.mk [("chat_history", hs), ("document", ds), ("slm_response", v1),
      ("llm_response", v2)]).col "chat_history" = hs := rfl

lemma col5_chat (hs ds v1 v2 v3 : List Cell) :
    (DataFrame.mk [("chat_history", hs), ("document", ds), ("slm_response", v1),
      ("llm_response", v2), ("scores", v3)]).col "chat_history" = hs := rfl

lemma col5_doc (hs ds v1 v2 v3 : List Cell) :
    (DataFrame.mk [("chat_history", hs), ("document", ds), ("slm_response", v1),
      ("llm_response", v2), ("scores", v3)]).col "document" = ds := rfl

/-- A `with_columns` series whose length is the frame height or 1
always succeeds: it is recorded as given, or broadcast to the frame
height when unit-length. -/
lemma withColumn_ok_of (df : DataFrame) (name : String) (vals : List Cell)
    (h : vals.length = df.height ∨ vals.length = 1) :
    ∃ vals2, vals2.length = df.height ∧
      df.withColumn name vals = .ok ⟨setCol df.cols name vals2⟩ := by
  unfold DataFrame.withColumn
  by_cases hc : vals.length = df.height
  · exact ⟨vals, hc, by rw [if_pos hc]⟩
  · have h1 : vals.length = 1 := h.resolve_left hc
    obtain ⟨v, rfl⟩ := List.length_eq_one.mp h1
    exact ⟨List.replicate df.height v, List.length_replicate _ _, by rw [if_neg hc]⟩

/-- A `with_columns` series whose length is neither the frame height
nor 1 raises the shape error. -/
lemma withColumn_err (df : DataFrame) (name : String) (vals : List Cell)
    (hh : vals.length ≠ df.height) (h1 : vals.length ≠ 1) :
    df.withColumn name vals =
      .error "ShapeError: unable to add a column of a different length" := by
  unfold DataFrame.withColumn
  rw [if_neg hh]
  rcases vals with - | ⟨v, - | ⟨w, t⟩⟩
  · rfl
  · exact absurd rfl h1
  · rfl

/-- An SLM response array whose length is neither the working-set
height nor 1 (polars would broadcast a unit-length series) makes the
first `with_columns` raise. -/
lemma roundStep_err_slm (C : Collaborators) (p : KnowledgeParameter)
    (augmented : DataFrame) (hs ds : List Cell)
    (h : (roundSlmR C p hs ds).length ≠ hs.length)
    (h1 : (roundSlmR C p hs ds).length ≠ 1) :
    roundStep C p augmented ⟨[("chat_history", hs), ("document", ds)]⟩ =
      .error "ShapeError: unable to add a column of a different length" := by
  have hE := withColumn_err ⟨[("chat_history", hs), ("document", ds)]⟩ "slm_response"
    ((roundSlmR C p hs ds).map Cell.str)
    (by simpa [DataFrame.height] using h) (by simpa using h1)
  simp only [roundSlmR, roundBuilt] at hE
  simp only [roundStep, col2_chat, col2_doc]
  rw [hE]
  simp [Bind.bind, Except.bind]

/-- With accepted SLM responses (full-length or broadcast) but an LLM
response array whose length is neither the height nor 1, the second
series of the same `with_columns` raises. -/
lemma roundStep_err_llm (C : Collaborators) (p : KnowledgeParameter)
    (augmented : DataFrame) (hs ds : List Cell)
    (hsr : (roundSlmR C p hs ds).length = hs.length ∨ (roundSlmR C p hs ds).length = 1)
    (h : (roundLlmR C p hs ds).length ≠ hs.length)
    (h1 : (roundLlmR C p hs ds).length ≠ 1) :
    roundStep C p augmented ⟨[("chat_history", hs), ("document", ds)]⟩ =
      .error "ShapeError: unable to add a column of a different length" := by
  obtain ⟨v1, hv1, E1⟩ := withColumn_ok_of ⟨[("chat_history", hs), ("document", ds)]⟩
    "slm_response" ((roundSlmR C p hs ds).map Cell.str)
    (by simpa [DataFrame.height] using hsr)
  have E1x : DataFrame.withColumn ⟨[("chat_history", hs), ("document", ds)]⟩
      "slm_response" ((roundSlmR C p hs ds).map Cell.str) =
      .ok ⟨[("chat_history", hs), ("document", ds), ("slm_response", v1)]⟩ := E1
  have hE := withColumn_err
    ⟨[("chat_history", hs), ("document", ds), ("slm_response", v1)]⟩ "llm_response"
    ((roundLlmR C p hs ds).map Cell.str)
    (by simpa [DataFrame.height] using h) (by simpa using h1)
  simp only [roundSlmR, roundBuilt] at E1x
  simp only [roundLlmR, roundBuilt] at hE
  simp only [roundStep, col2_chat, col2_doc]
  rw [E1x]
  simp only [Bind.bind, Except.bind]
  rw [hE]

/-- With both response arrays accepted but a score array whose length
is neither the height nor 1, the `with_columns` recording the scores
raises. -/
lemma roundStep_err_scores (C : Collaborators) (p : KnowledgeParameter)
    (augmented : DataFrame) (hs ds : List Cell)
    (hsr : (roundSlmR C p hs ds).length = hs.length ∨ (roundSlmR C p hs ds).length = 1)
    (hlr : (roundLlmR C p hs ds).length = hs.length ∨ (roundLlmR C p hs ds).length = 1)
    (h : (roundScores C p hs ds).length ≠ hs.length)
    (h1 : (roundScores C p hs ds).length ≠ 1) :
    roundStep C p augmented ⟨[("chat_history", hs), ("document", ds)]⟩ =
      .error "ShapeError: unable to add a column of a different length" := by
  obtain ⟨v1, hv1, E1⟩ := withColumn_ok_of ⟨[("chat_history", hs), ("document", ds)]⟩
    "slm_response" ((roundSlmR C p hs ds).map Cell.str)
    (by simpa [DataFrame.height] using hsr)
  have E1x : DataFrame.withColumn ⟨[("chat_history", hs), ("document", ds)]⟩
      "slm_response" ((roundSlmR C p hs ds).map Cell.str) =
      .ok ⟨[("chat_history", hs), ("document", ds), ("slm_response", v1)]⟩ := E1
  obtain ⟨v2, hv2, E2⟩ := withColumn_ok_of
    ⟨[("chat_history", hs), ("document", ds), ("slm_response", v1)]⟩
    "llm_response" ((roundLlmR C p hs ds).map Cell.str)
    (by simpa [DataFrame.height] using hlr)
  have E2x : DataFrame.withColumn
      ⟨[("chat_history", hs), ("document", ds), ("slm_response", v1)]⟩
      "llm_response" ((roundLlmR C p hs ds).map Cell.str) =
      .ok ⟨[("chat_history", hs), ("document", ds), ("slm_response", v1),
        ("llm_response", v2)]⟩ := E2
  have hE := withColumn_err
    ⟨[("chat_history", hs), ("document", ds), ("slm_response", v1),
      ("llm_response", v2)]⟩ "scores"
    ((roundScores C p hs ds).map Cell.int)
    (by simpa [DataFrame.height] using h) (by simpa using h1)
  simp only [roundSlmR, roundBuilt] at E1x
  simp only [roundLlmR, roundBuilt] at E2x
  simp only [roundScores, roundSlmR, roundLlmR, roundBuilt] at hE
  simp only [roundStep, col2_chat, col2_doc]
  rw [E1x]
  simp only [Bind.bind, Except.bind]
  rw [E2x]
  simp only [Bind.bind, Except.bind, col4_chat]
  rw [hE]

/-- Any round whose three recorded series each have the working-set
height or length 1 succeeds: full-length series are recorded as given,
unit-length series are silently broadcast to every row, and the
expansion output and call log are unaffected either way. -/
lemma roundStep_ok_mixed (C : Collaborators) (p : KnowledgeParameter)
    (a1 a2 a3 a4 a5 hs ds : List Cell)
    (h1 : (roundSlmR C p hs ds).length = hs.length ∨ (roundSlmR C p hs ds).length = 1)
    (h2 : (roundLlmR C p hs ds).length = hs.length ∨ (roundLlmR C p hs ds).length = 1)
    (h3 : (roundScores C p hs ds).length = hs.length ∨ (roundScores C p hs ds).length = 1) :
    ∃ v1 v2 v3, v1.length = hs.length ∧ v2.length = hs.length ∧
      v3.length = hs.length ∧
      roundStep C p
        ⟨[("chat_history", a1), ("document", a2), ("slm_response", a3),
          ("llm_response", a4), ("scores", a5)]⟩
        ⟨[("chat_history", hs), ("document", ds)]⟩ =
        .ok (⟨[("chat_history", a1 ++ hs), ("document", a2 ++ ds),
            ("slm_response", a3 ++ v1), ("llm_response", a4 ++ v2),
            ("scores", a5 ++ v3)]⟩,
          roundTempOut C p hs ds, roundCalls C p hs ds) := by
  have hlen : (roundNewChats C p hs ds).length = (roundNewDocs C p hs ds).length := by
    rw [roundNewChats_length, roundNewDocs_length]
  simp only [roundNewChats, roundNewDocs, roundTuples, roundSlmQD, roundLlmQD,
    roundScores, roundSlmR, roundLlmR, roundBuilt] at hlen
  obtain ⟨v1, hv1, E1⟩ := withColumn_ok_of ⟨[("chat_history", hs), ("document", ds)]⟩
    "slm_response" ((roundSlmR C p hs ds).map Cell.str)
    (by simpa [DataFrame.height] using h1)
  have E1x : DataFrame.withColumn ⟨[("chat_history", hs), ("document", ds)]⟩
      "slm_response" ((roundSlmR C p hs ds).map Cell.str) =
      .ok ⟨[("chat_history", hs), ("document", ds), ("slm_response", v1)]⟩ := E1
  obtain ⟨v2, hv2, E2⟩ := withColumn_ok_of
    ⟨[("chat_history", hs), ("document", ds), ("slm_response", v1)]⟩
    "llm_response" ((roundLlmR C p hs ds).map Cell.str)
    (by simpa [DataFrame.height] using h2)
  have E2x : DataFrame.withColumn
      ⟨[("chat_history", hs), ("document", ds), ("slm_response", v1)]⟩
      "llm_response" ((roundLlmR C p hs ds).map Cell.str) =
      .ok ⟨[("chat_history", hs), ("document", ds), ("slm_response", v1),
        ("llm_response", v2)]⟩ := E2
  obtain ⟨v3, hv3, E3⟩ := withColumn_ok_of
    ⟨[("chat_history", hs), ("document", ds), ("slm_response", v1),
      ("llm_response", v2)]⟩ "scores"
    ((roundScores C p hs ds).map Cell.int)
    (by simpa [DataFrame.height] using h3)
  have E3x : DataFrame.withColumn
      ⟨[("chat_history", hs), ("document", ds), ("slm_response", v1),
        ("llm_response", v2)]⟩ "scores"
      ((roundScores C p hs ds).map Cell.int) =
      .ok ⟨[("chat_history", hs), ("document", ds), ("slm_response", v1),
        ("llm_response", v2), ("scores", v3)]⟩ := E3
  simp only [roundSlmR, roundBuilt] at E1x
  simp only [roundLlmR, roundBuilt] at E2x
  simp only [roundScores, roundSlmR, roundLlmR, roundBuilt] at E3x
  refine ⟨v1, v2, v3, by simpa [DataFrame.height] using hv1,
    by simpa [DataFrame.height] using hv2,
    by simpa [DataFrame.height] using hv3, ?_⟩
  simp only [roundStep, roundTempOut, roundCalls, roundNewChats, roundNewDocs,
    roundTuples, roundSlmQD, roundLlmQD, roundScores, roundSlmR, roundLlmR,
    roundBuilt, col2_chat, col2_doc]
  rw [E1x]
  simp only [Bind.bind, Except.bind]
  rw [E2x]
  simp only [Bind.bind, Except.bind, col4_chat]
  rw [E3x]
  simp only [Bind.bind, Except.bind, col5_chat, col5_doc]
  simp [DataFrame.vstack, DataFrame.columns, dictFrame, setCol,
    Bind.bind, Except.bind, hlen]

/-- Inversion: a successful `roundStep` on shaped frames — whether or
not any series was broadcast — has a five-column accumulator output
and exactly the canonical expansion output and call log. -/
lemma roundStep_ok_inv (C : Collaborators) (p : KnowledgeParameter)
    (a1 a2 a3 a4 a5 hs ds : List Cell)
    (res : DataFrame × DataFrame × List ExpanderCall)
    (h : roundStep C p
      ⟨[("chat_history", a1), ("document", a2), ("slm_response", a3),
        ("llm_response", a4), ("scores", a5)]⟩
      ⟨[("chat_history", hs), ("document", ds)]⟩ = .ok res) :
    (∃ b1 b2 b3 b4 b5, res.1 =
      ⟨[("chat_history", b1), ("document", b2), ("slm_response", b3),
        ("llm_response", b4), ("scores", b5)]⟩) ∧
    res.2.1 = roundTempOut C p hs ds ∧
    res.2.2 = roundCalls C p hs ds := by
  by_cases h1 : (roundSlmR C p hs ds).length = hs.length ∨
      (roundSlmR C p hs ds).length = 1
  · by_cases h2 : (roundLlmR C p hs ds).length = hs.length ∨
        (roundLlmR C p hs ds).length = 1
    · by_cases h3 : (roundScores C p hs ds).length = hs.length ∨
          (roundScores C p hs ds).length = 1
      · obtain ⟨v1, v2, v3, -, -, -, heq⟩ :=
          roundStep_ok_mixed C p a1 a2 a3 a4 a5 hs ds h1 h2 h3
        rw [heq, Except.ok.injEq] at h
        exact ⟨⟨a1 ++ hs, a2 ++ ds, a3 ++ v1, a4 ++ v2, a5 ++ v3, by rw [← h]⟩,
          by rw [← h], by rw [← h]⟩
      · push_neg at h3
        rw [roundStep_err_scores C p _ hs ds h1 h2 h3.1 h3.2] at h
        exact absurd h (by simp)
    · push_neg at h2
      rw [roundStep_err_llm C p _ hs ds h1 h2.1 h2.2] at h
      exact absurd h (by simp)
  · push_neg at h1
    rw [roundStep_err_slm C p _ hs ds h1.1 h1.2] at h
    exact absurd h (by simp)

/-- The conversation starters one document contributes during seeding. -/
def seedStarters (C : Collaborators) (p : KnowledgeParameter) (document : String) :
    List ChatHistory :=
  C.generate_conversation_starter p.llm_model p.conversation_starter_count
    (C.build_knowledge_instruction p.conversation_starter_instruction document) none

/-- One seeding iteration on a shaped working frame always succeeds and
appends the document's starters, pairing each with the source document
verbatim. -/
lemma seedStep_eq (C : Collaborators) (p : KnowledgeParameter)
    (hs ds : List Cell) (document : String) :
    seedStep C p ⟨[("chat_history", hs), ("document", ds)]⟩ document =
      .ok ⟨[("chat_history", hs ++ (seedStarters C p document).map Cell.chat),
            ("document", ds ++ (List.replicate (seedStarters C p document).length
              document).map Cell.str)]⟩ := by
  simp only [seedStep, seedStarters]
  simp [dictFrame, DataFrame.vstack, DataFrame.columns, Bind.bind, Except.bind]

/-- Folding the seeding step over a document list from a shaped frame:
always succeeds, keeps the shape, and every document cell either was
already there or is one of the folded documents verbatim. -/
lemma seedFold_shape (C : Collaborators) (p : KnowledgeParameter)
    (docs : List String) (hs ds : List Cell) (hlen : hs.length = ds.length) :
    ∃ hs2 ds2,
      docs.foldlM (seedStep C p) ⟨[("chat_history", hs), ("document", ds)]⟩ =
        .ok ⟨[("chat_history", hs2), ("document", ds2)]⟩ ∧
      hs2.length = ds2.length ∧
      ∀ c ∈ ds2, c ∈ ds ∨ ∃ d ∈ docs, c = Cell.str d := by
  induction docs generalizing hs ds with
  | nil => exact ⟨hs, ds, by simp [pure, Except.pure], hlen, fun c hc => .inl hc⟩
  | cons doc docs ih =>
    obtain ⟨hs2, ds2, heq, hlen2, hmem2⟩ :=
      ih (hs ++ (seedStarters C p doc).map Cell.chat)
        (ds ++ (List.replicate (seedStarters C p doc).length doc).map Cell.str)
        (by simp [hlen])
    refine ⟨hs2, ds2, ?_, hlen2, ?_⟩
    · rw [List.foldlM_cons, seedStep_eq]
      simpa [Bind.bind, Except.bind] using heq
    · intro c hc
      rcases hmem2 c hc with h | ⟨d, hd, rfl⟩
      · rcases List.mem_append.mp h with h | h
        · exact .inl h
        · refine .inr ⟨doc, List.mem_cons_self doc docs, ?_⟩
          obtain ⟨x, hx, rfl⟩ := List.mem_map.mp h
          rw [List.eq_of_mem_replicate hx]
      · exact .inr ⟨d, List.mem_cons_of_mem doc hd, rfl⟩

/-- Seeding always succeeds, yields a shaped working frame, and every
document cell is one of the bank's documents verbatim. -/
lemma seedWorking_shape (C : Collaborators) (p : KnowledgeParameter) :
    ∃ hs ds,
      seedWorking C p = .ok ⟨[("chat_history", hs), ("document", ds)]⟩ ∧
      hs.length = ds.length ∧
      ∀ c ∈ ds, ∃ d ∈ p.documents, c = Cell.str d := by
  obtain ⟨hs, ds, heq, hlen, hmem⟩ := seedFold_shape C p p.documents [] [] rfl
  refine ⟨hs, ds, heq, hlen, fun c hc => ?_⟩
  rcases hmem c hc with h | h
  · exact absurd h (List.not_mem_nil c)
  · exact h

/-- Under the alignment contract every per-round array has the length
of the working set, and so does the zipped tuple list. -/
lemma roundLists_aligned (C : Collaborators) (p : KnowledgeParameter)
    (hs ds : List Cell) (hC : LengthAligned C) :
    (roundSlmR C p hs ds).length = hs.length ∧
    (roundLlmR C p hs ds).length = hs.length ∧
    (roundScores C p hs ds).length = hs.length ∧
    (roundSlmQD C p hs ds).1.length = hs.length ∧
    (roundSlmQD C p hs ds).2.length = hs.length ∧
    (roundLlmQD C p hs ds).1.length = hs.length ∧
    (roundLlmQD C p hs ds).2.length = hs.length ∧
    (roundTuples C p hs ds).length = hs.length := by
  obtain ⟨hb, hg, hsc, hq⟩ := hC
  have hbuilt : (roundBuilt C p hs ds).length = hs.length := by
    unfold roundBuilt
    rw [hb, List.length_map]
  have h1 : (roundSlmR C p hs ds).length = hs.length := by
    unfold roundSlmR
    rw [hg, hbuilt]
  have h2 : (roundLlmR C p hs ds).length = hs.length := by
    unfold roundLlmR
    rw [hg, hbuilt]
  have h3 : (roundScores C p hs ds).length = hs.length := by
    unfold roundScores
    rw [hsc, List.length_map]
  have h4 : (roundSlmQD C p hs ds).1.length = hs.length := by
    unfold roundSlmQD
    rw [(hq _ _ _ _ _).1, List.length_map]
  have h5 : (roundSlmQD C p hs ds).2.length = hs.length := by
    unfold roundSlmQD
    rw [(hq _ _ _ _ _).2, List.length_map]
  have h6 : (roundLlmQD C p hs ds).1.length = hs.length := by
    unfold roundLlmQD
    rw [(hq _ _ _ _ _).1, List.length_map]
  have h7 : (roundLlmQD C p hs ds).2.length = hs.length := by
    unfold roundLlmQD
    rw [(hq _ _ _ _ _).2, List.length_map]
  have h8 : (roundTuples C p hs ds).length = hs.length := by
    unfold roundTuples
    rw [zip7_length, List.length_map, h1, h2, h4, h6, h5, h7]
    simp [Nat.min_self]
  exact ⟨h1, h2, h3, h4, h5, h6, h7, h8⟩

/-- Master induction: under the alignment contract, `runRounds` from
shaped frames always succeeds; the working set doubles each round, the
accumulator gains every round's working set exactly once and is only
ever appended to, and each round logs exactly the two expander calls
with the observed model-role swap and SLM-response reuse. -/
lemma runRounds_aligned (C : Collaborators) (p : KnowledgeParameter)
    (hC : LengthAligned C) (N : Nat) :
    ∀ (a1 a2 a3 a4 a5 hs ds : List Cell),
      a2.length = a1.length → a3.length = a1.length →
      a4.length = a1.length → a5.length = a1.length →
      hs.length = ds.length →
    ∃ b1 b2 b3 b4 b5 hs2 ds2 calls,
      runRounds C p N
        ⟨[("chat_history", a1), ("document", a2), ("slm_response", a3),
          ("llm_response", a4), ("scores", a5)]⟩
        ⟨[("chat_history", hs), ("document", ds)]⟩ =
        .ok (⟨[("chat_history", b1), ("document", b2), ("slm_response", b3),
          ("llm_response", b4), ("scores", b5)]⟩,
          ⟨[("chat_history", hs2), ("document", ds2)]⟩, calls) ∧
      b2.length = b1.length ∧ b3.length = b1.length ∧
      b4.length = b1.length ∧ b5.length = b1.length ∧
      hs2.length = ds2.length ∧
      hs2.length = 2 ^ N * hs.length ∧
      b1.length = a1.length + hs.length * (2 ^ N - 1) ∧
      (∃ e1 e2 e3 e4 e5, b1 = a1 ++ e1 ∧ b2 = a2 ++ e2 ∧ b3 = a3 ++ e3 ∧
        b4 = a4 ++ e4 ∧ b5 = a5 ++ e5) ∧
      calls.length = 2 * N ∧
      (∀ j, j < N → ∃ chs dcs rs,
        calls[2 * j]? = some ⟨p.llm_model, chs, rs, dcs, p.documents⟩ ∧
        calls[2 * j + 1]? = some ⟨p.slm_model, chs, rs, dcs, p.documents⟩ ∧
        rs = C.generate_conversations_response p.slm_model
          (C.build_chat_histories p.conversation_personalization_instruction dcs chs)) := by
  induction N with
  | zero =>
    intro a1 a2 a3 a4 a5 hs ds ha2 ha3 ha4 ha5 hhd
    refine ⟨a1, a2, a3, a4, a5, hs, ds, [], rfl, ha2, ha3, ha4, ha5, hhd, ?_, ?_, ?_, rfl, ?_⟩
    · simp
    · simp
    · exact ⟨[], [], [], [], [], by simp, by simp, by simp, by simp, by simp⟩
    · intro j hj
      exact absurd hj (Nat.not_lt_zero j)
  | succ N ih =>
    intro a1 a2 a3 a4 a5 hs ds ha2 ha3 ha4 ha5 hhd
    obtain ⟨h1, h2, h3, _, _, _, _, h8⟩ := roundLists_aligned C p hs ds hC
    have hstep := roundStep_eq_ok C p a1 a2 a3 a4 a5 hs ds h1 h2 h3
    have hNC : (roundNewChats C p hs ds).length = 2 * hs.length := by
      rw [roundNewChats_length, h8]
    have hND : (roundNewDocs C p hs ds).length = 2 * hs.length := by
      rw [roundNewDocs_length, h8]
    obtain ⟨b1, b2, b3, b4, b5, hs2, ds2, calls, hrun, hb2, hb3, hb4, hb5, hlen2,
        hh2, hb1len, hext, hclen, hcalls⟩ :=
      ih (a1 ++ hs) (a2 ++ ds) (a3 ++ (roundSlmR C p hs ds).map Cell.str)
        (a4 ++ (roundLlmR C p hs ds).map Cell.str)
        (a5 ++ (roundScores C p hs ds).map Cell.int)
        ((roundNewChats C p hs ds).map Cell.chat)
        ((roundNewDocs C p hs ds).map Cell.str)
        (by simp [ha2, hhd]) (by simp [ha3, h1]) (by simp [ha4, h2])
        (by simp [ha5, h3]) (by simp [hNC, hND])
    refine ⟨b1, b2, b3, b4, b5, hs2, ds2,
      roundCalls C p hs ds ++ calls, ?_, hb2, hb3, hb4, hb5, hlen2, ?_, ?_, ?_, ?_, ?_⟩
    · show runRounds C p (N + 1) _ _ = _
      rw [runRounds, hstep]
      simp only [roundAugOut, roundTempOut]
      simp [Bind.bind, Except.bind, hrun]
    · rw [hh2]
      simp [List.length_map, hNC]
      ring
    · obtain ⟨m, hm⟩ : ∃ m, 2 ^ N = m + 1 :=
        ⟨2 ^ N - 1, by have := Nat.one_le_two_pow (n := N); omega⟩
      have e1 : 2 ^ (N + 1) = 2 * 2 ^ N := by ring
      rw [hb1len, e1, hm]
      simp only [List.length_append, List.length_map, hNC]
      have e2 : m + 1 - 1 = m := by omega
      have e3 : 2 * (m + 1) - 1 = 2 * m + 1 := by omega
      rw [e2, e3]
      ring
    · obtain ⟨e1, e2, e3, e4, e5, he1, he2, he3, he4, he5⟩ := hext
      exact ⟨hs ++ e1, ds ++ e2, (roundSlmR C p hs ds).map Cell.str ++ e3,
        (roundLlmR C p hs ds).map Cell.str ++ e4,
        (roundScores C p hs ds).map Cell.int ++ e5,
        by rw [he1, List.append_assoc], by rw [he2, List.append_assoc],
        by rw [he3, List.append_assoc], by rw [he4, List.append_assoc],
        by rw [he5, List.append_assoc]⟩
    · have h2c : (roundCalls C p hs ds).length = 2 := rfl
      rw [List.length_append, hclen, h2c]
      ring
    · intro j hj
      cases j with
      | zero =>
        refine ⟨(hs.map Cell.asChat), (ds.map Cell.asStr), roundSlmR C p hs ds, ?_, ?_, rfl⟩
        · simp [roundCalls]
        · simp [roundCalls]
      | succ j =>
        obtain ⟨chs, dcs, rs, hc1, hc2, hrs⟩ := hcalls j (Nat.lt_of_succ_lt_succ hj)
        refine ⟨chs, dcs, rs, ?_, ?_, hrs⟩
        · have e : 2 * (j + 1) = 2 * j + 1 + 1 := by ring
          rw [e]
          show (roundCalls C p hs ds ++ calls)[2 * j + 1 + 1]? = _
          simp only [roundCalls, List.cons_append, List.nil_append,
            List.getElem?_cons_succ]
          exact hc1
        · have e : 2 * (j + 1) + 1 = 2 * j + 1 + 1 + 1 := by ring
          rw [e]
          show (roundCalls C p hs ds ++ calls)[2 * j + 1 + 1 + 1]? = _
          simp only [roundCalls, List.cons_append, List.nil_append,
            List.getElem?_cons_succ]
          exact hc2

/-- Every expanded chat history is some parent history from the working
frame with an assistant turn and a user turn appended. -/
lemma roundNewChats_mem (C : Collaborators) (p : KnowledgeParameter)
    (hs ds : List Cell) (c : ChatHistory) (hc : c ∈ roundNewChats C p hs ds) :
    ∃ h0 ∈ hs.map Cell.asChat, ∃ r q,
      c = h0 ++ [⟨"assistant", r⟩, ⟨"user", q⟩] := by
  unfold roundNewChats at hc
  rw [List.mem_flatMap] at hc
  obtain ⟨t, ht, hct⟩ := hc
  have hmem := zip7_mem ht
  obtain ⟨ch, sr, lr, sq, lq, sd, ld⟩ := t
  simp only [List.mem_cons, List.not_mem_nil, or_false] at hct
  rcases hct with rfl | rfl
  · exact ⟨ch, hmem.1, sr, sq, rfl⟩
  · exact ⟨ch, hmem.1, lr, lq, rfl⟩

/-- If the expander only draws grounding documents from the bank, every
expanded document is in the bank. -/
lemma roundNewDocs_mem_bank (C : Collaborators) (p : KnowledgeParameter)
    (hs ds : List Cell) (hB : DocsFromBank C) (d : String)
    (hd : d ∈ roundNewDocs C p hs ds) : d ∈ p.documents := by
  unfold roundNewDocs at hd
  rw [List.mem_flatMap] at hd
  obtain ⟨t, ht, hdt⟩ := hd
  have hmem := zip7_mem ht
  obtain ⟨ch, sr, lr, sq, lq, sd, ld⟩ := t
  simp only [List.mem_cons, List.not_mem_nil, or_false] at hdt
  rcases hdt with rfl | rfl
  · exact hB _ _ _ _ _ _ hmem.2.2.2.2.2.1
  · exact hB _ _ _ _ _ _ hmem.2.2.2.2.2.2

/-- Unconditional inversion for the whole loop: a successful run from
shaped frames ends in a shaped working frame, and — when the expander
respects the bank — document-bank membership is preserved from the
initial working frame to the final one. -/
lemma runRounds_ok_docs (C : Collaborators) (p : KnowledgeParameter) (N : Nat) :
    ∀ (a1 a2 a3 a4 a5 hs ds : List Cell)
      (aug2 temp2 : DataFrame) (calls : List ExpanderCall),
      runRounds C p N
        ⟨[("chat_history", a1), ("document", a2), ("slm_response", a3),
          ("llm_response", a4), ("scores", a5)]⟩
        ⟨[("chat_history", hs), ("document", ds)]⟩ = .ok (aug2, temp2, calls) →
      ∃ hs2 ds2, temp2 = ⟨[("chat_history", hs2), ("document", ds2)]⟩ ∧
        (DocsFromBank C → (∀ c ∈ ds, ∃ d ∈ p.documents, c = Cell.str d) →
          ∀ c ∈ ds2, ∃ d ∈ p.documents, c = Cell.str d) := by
  induction N with
  | zero =>
    intro a1 a2 a3 a4 a5 hs ds aug2 temp2 calls h
    rw [runRounds, Except.ok.injEq] at h
    simp only [Prod.mk.injEq] at h
    obtain ⟨-, rfl, -⟩ := h
    exact ⟨hs, ds, rfl, fun _ hmem => hmem⟩
  | succ N ih =>
    intro a1 a2 a3 a4 a5 hs ds aug2 temp2 calls h
    rw [runRounds] at h
    cases hr : roundStep C p
        ⟨[("chat_history", a1), ("document", a2), ("slm_response", a3),
          ("llm_response", a4), ("scores", a5)]⟩
        ⟨[("chat_history", hs), ("document", ds)]⟩ with
    | error e =>
      rw [hr] at h
      simp [Bind.bind, Except.bind] at h
    | ok trip =>
      obtain ⟨tA, tT, tC⟩ := trip
      rw [hr] at h
      obtain ⟨⟨b1, b2, b3, b4, b5, haug⟩, htemp, -⟩ :=
        roundStep_ok_inv C p a1 a2 a3 a4 a5 hs ds (tA, tT, tC) hr
      have haug2 : tA = ⟨[("chat_history", b1), ("document", b2),
          ("slm_response", b3), ("llm_response", b4), ("scores", b5)]⟩ := haug
      have htemp2 : tT = roundTempOut C p hs ds := htemp
      subst haug2
      subst htemp2
      simp only [Bind.bind, Except.bind] at h
      cases hrr : runRounds C p N
          ⟨[("chat_history", b1), ("document", b2), ("slm_response", b3),
            ("llm_response", b4), ("scores", b5)]⟩
          (roundTempOut C p hs ds) with
      | error e =>
        rw [hrr] at h
        simp at h
      | ok trip2 =>
        obtain ⟨aug3, temp3, calls3⟩ := trip2
        rw [hrr] at h
        simp only [Except.ok.injEq, Prod.mk.injEq] at h
        obtain ⟨rfl, rfl, rfl⟩ := h
        simp only [roundTempOut] at hrr
        obtain ⟨hs2, ds2, htemp3, hdocs⟩ :=
          ih b1 b2 b3 b4 b5
            ((roundNewChats C p hs ds).map Cell.chat)
            ((roundNewDocs C p hs ds).map Cell.str)
            aug3 temp3 calls3 hrr
        refine ⟨hs2, ds2, htemp3, fun hB _ => hdocs hB ?_⟩
        intro c hc
        obtain ⟨d, hd, rfl⟩ := List.mem_map.mp hc
        exact ⟨d, roundNewDocs_mem_bank C p hs ds hB d hd, rfl⟩

/-- A successful `N+1`-round run decomposes as a successful `N`-round
run followed by one final `roundStep` that produced the returned
working frame. -/
lemma runRounds_last (C : Collaborators) (p : KnowledgeParameter) (N : Nat) :
    ∀ (aug temp : DataFrame) (res : DataFrame × DataFrame × List ExpanderCall),
      runRounds C p (N + 1) aug temp = .ok res →
      ∃ aug1 temp1 calls1 calls2,
        runRounds C p N aug temp = .ok (aug1, temp1, calls1) ∧
        roundStep C p aug1 temp1 = .ok (res.1, res.2.1, calls2) ∧
        res.2.2 = calls1 ++ calls2 := by
  induction N with
  | zero =>
    intro aug temp res h
    rw [runRounds] at h
    cases hr : roundStep C p aug temp with
    | error e =>
      rw [hr] at h
      simp [Bind.bind, Except.bind] at h
    | ok s =>
      obtain ⟨a, t, cs⟩ := s
      rw [hr] at h
      simp only [Bind.bind, Except.bind, runRounds, Except.ok.injEq] at h
      refine ⟨aug, temp, [], cs, rfl, ?_, ?_⟩
      · rw [← h]
        exact hr
      · rw [← h]
        simp
  | succ N ih =>
    intro aug temp res h
    rw [runRounds] at h
    cases hr : roundStep C p aug temp with
    | error e =>
      rw [hr] at h
      simp [Bind.bind, Except.bind] at h
    | ok s =>
      obtain ⟨a, t, cs⟩ := s
      rw [hr] at h
      simp only [Bind.bind, Except.bind] at h
      cases hrr : runRounds C p (N + 1) a t with
      | error e =>
        rw [hrr] at h
        simp at h
      | ok r =>
        obtain ⟨ra, rt, rcs⟩ := r
        rw [hrr] at h
        simp only [Except.ok.injEq] at h
        obtain ⟨aug1, temp1, c1, c2, hrun1, hstep1, hcs⟩ :=
          ih a t (ra, rt, rcs) hrr
        refine ⟨aug1, temp1, cs ++ c1, c2, ?_, ?_, ?_⟩
        · rw [runRounds, hr]
          simp [Bind.bind, Except.bind, hrun1]
        · rw [← h]
          exact hstep1
        · rw [← h]
          simp only at hcs
          rw [hcs, List.append_assoc]

lemma map_asChat_map_chat (l : List ChatHistory) :
    (l.map Cell.chat).map Cell.asChat = l := by
  induction l with
  | nil => rfl
  | cons a l ih => simp [ih, Cell.asChat]

lemma map_asStr_map_str (l : List String) :
    (l.map Cell.str).map Cell.asStr = l := by
  induction l with
  | nil => rfl
  | cons a l ih => simp [ih, Cell.asStr]

/-! ## Concrete stub collaborators and parameters for witness runs -/

/-- Deterministic, length-aligned stub collaborators. -/
def stubA : Collaborators where
  build_knowledge_instruction i d := i ++ d
  generate_conversation_starter _ n _ _ := List.replicate n [⟨"user", "q0"⟩]
  build_chat_histories _ _ chs := chs
  generate_conversations_response m chs := chs.map (fun _ => m)
  comparison_score _ chs _ _ := chs.map (fun _ => (1 : Int))
  generate_next_conversation _ chs _ _ bank :=
    (chs.map (fun _ => "followup"), chs.map (fun _ => bank.headD "d"))

lemma stubA_aligned : LengthAligned stubA := by
  refine ⟨?_, ?_, ?_, ?_⟩
  · intro i ds chs
    simp [stubA]
  · intro m chs
    simp [stubA]
  · intro m chs lr sr
    simp [stubA]
  · intro m chs rs ds bank
    constructor <;> simp [stubA]

/-- Deterministic stub collaborators whose expander only proposes bank
documents. -/
def stubB : Collaborators where
  build_knowledge_instruction i d := i ++ d
  generate_conversation_starter _ n _ _ := List.replicate n [⟨"user", "q0"⟩]
  build_chat_histories _ _ chs := chs
  generate_conversations_response m chs := chs.map (fun _ => m)
  comparison_score _ chs _ _ := chs.map (fun _ => (1 : Int))
  generate_next_conversation _ chs _ _ bank :=
    match bank with
    | [] => ([], [])
    | b :: _ => (chs.map (fun _ => "followup"), chs.map (fun _ => b))

lemma stubB_bank : DocsFromBank stubB := by
  intro m chs rs ds bank d hd
  cases bank with
  | nil => simp [stubB] at hd
  | cons b bs =>
    simp [stubB] at hd
    rw [hd.2]
    exact List.mem_cons_self b bs

/-- Stub collaborators whose continuation expander always returns
length-1 arrays, regardless of the batch size. -/
def stub6 : Collaborators where
  build_knowledge_instruction i d := i ++ d
  generate_conversation_starter _ _ _ _ := [[⟨"user", "q0"⟩], [⟨"user", "q1"⟩]]
  build_chat_histories _ _ chs := chs
  generate_conversations_response m chs := chs.map (fun _ => m)
  comparison_score _ chs _ _ := chs.map (fun _ => (1 : Int))
  generate_next_conversation _ _ _ _ _ := (["q?"], ["d1"])

/-- One document, one starter, one round. -/
def pW : KnowledgeParameter :=
  ⟨["d1"], "starter", "personal", 1, 1, "slm", "llm"⟩

/-- Empty document bank, one round. -/
def pEmpty : KnowledgeParameter :=
  ⟨[], "starter", "personal", 1, 1, "slm", "llm"⟩

/-- One document (two starters under `stub6`), one round. -/
def p6 : KnowledgeParameter :=
  ⟨["d1"], "starter", "personal", 2, 1, "slm", "llm"⟩

/-- The seeded working frame of the `stubA`/`pW` run. -/
def tempW : DataFrame :=
  ⟨[("chat_history", [Cell.chat [⟨"user", "q0"⟩]]), ("document", [Cell.str "d1"])]⟩

/-- The frame returned by the `stubA`/`pW` run. -/
def dfW : DataFrame :=
  match knowledge_pipeline stubA pW with
  | .ok df => df
  | .error _ => ⟨[]⟩

lemma tempW_shape : WorkingShape tempW :=
  ⟨[Cell.chat [⟨"user", "q0"⟩]], [Cell.str "d1"], rfl, rfl⟩

lemma augmentedInit_shape : AugShape augmentedInit :=
  ⟨[], [], [], [], [], rfl, rfl, rfl, rfl, rfl⟩

/-! ## Claim theorems -/

/-- C1: for every successful run, `knowledge_pipeline` returns the
working frame of the final loop state — carrying only the
`chat_history` and `document` columns, hence not yet scored and not
the accumulated `augmented_data` result set — and whenever at least
one round ran, that frame is exactly the output of the last round's
expansion step. -/
theorem C1_returns_final_working_set (C : Collaborators) (p : KnowledgeParameter)
    (df : DataFrame) (h : knowledge_pipeline C p = .ok df) :
    df.columns = ["chat_history", "document"] ∧
    (∃ aug calls, pipelineState C p = .ok (aug, df, calls)) ∧
    (∀ n, p.max_conversations = n + 1 →
      ∃ seed aug1 temp1 calls1 calls2 aug2,
        seedWorking C p = .ok seed ∧
        runRounds C p n augmentedInit seed = .ok (aug1, temp1, calls1) ∧
        roundStep C p aug1 temp1 = .ok (aug2, df, calls2)) := by
  obtain ⟨hsL, dsL, hseed, hlenL, hmemL⟩ := seedWorking_shape C p
  unfold knowledge_pipeline pipelineState at h
  rw [hseed] at h
  simp only [Bind.bind, Except.bind] at h
  cases hrun : runRounds C p p.max_conversations augmentedInit
      ⟨[("chat_history", hsL), ("document", dsL)]⟩ with
  | error e =>
    rw [hrun] at h
    simp at h
  | ok s =>
    obtain ⟨aug, temp, calls⟩ := s
    rw [hrun] at h
    simp only [Except.ok.injEq] at h
    subst h
    refine ⟨?_, ?_, ?_⟩
    · obtain ⟨hs2, ds2, rfl, -⟩ :=
        runRounds_ok_docs C p p.max_conversations [] [] [] [] [] hsL dsL
          aug temp calls hrun
      rfl
    · refine ⟨aug, calls, ?_⟩
      unfold pipelineState
      rw [hseed]
      simp [Bind.bind, Except.bind, hrun]
    · intro n hn
      rw [hn] at hrun
      obtain ⟨aug1, temp1, calls1, calls2, h1, h2, -⟩ :=
        runRounds_last C p n augmentedInit
          ⟨[("chat_history", hsL), ("document", dsL)]⟩ (aug, temp, calls) hrun
      exact ⟨⟨[("chat_history", hsL), ("document", dsL)]⟩, aug1, temp1, calls1,
        calls2, aug, hseed, h1, h2⟩

/-- C1 witness: the concrete `stubA`/`pW` run. -/
theorem C1_returns_final_working_set_witness :
    knowledge_pipeline stubA pW = .ok dfW ∧
    dfW.columns = ["chat_history", "document"] :=
  ⟨rfl, (C1_returns_final_working_set stubA pW dfW rfl).1⟩

/-- C2 (code evaluation at the failing input): the frame returned by a
concrete run carries only the `chat_history` and `document` columns —
the `slm_response`, `llm_response` and `scores` columns promised by
the function's own docstring (source lines 24-29) are absent, because
line 133 rebuilds `temproary_augmented_data` with only two columns and
line 138 returns it. -/
theorem C2_output_missing_columns :
    knowledge_pipeline stubA pW = .ok dfW ∧
    dfW.columns = ["chat_history", "document"] ∧
    "slm_response" ∉ dfW.columns ∧
    "llm_response" ∉ dfW.columns ∧
    "scores" ∉ dfW.columns := by
  refine ⟨rfl, rfl, ?_, ?_, ?_⟩ <;> decide

/-- C3: one aligned round on shaped frames doubles the number of
working-set records. -/
theorem C3_expansion_doubles (C : Collaborators) (p : KnowledgeParameter)
    (aug temp aug2 temp2 : DataFrame) (calls : List ExpanderCall)
    (hC : LengthAligned C) (hA : AugShape aug) (hT : WorkingShape temp)
    (h : roundStep C p aug temp = .ok (aug2, temp2, calls)) :
    temp2.height = 2 * temp.height := by
  obtain ⟨a1, a2, a3, a4, a5, rfl, -, -, -, -⟩ := hA
  obtain ⟨hs, ds, rfl, -⟩ := hT
  obtain ⟨-, htemp, -⟩ := roundStep_ok_inv C p a1 a2 a3 a4 a5 hs ds _ h
  have htemp2 : temp2 = roundTempOut C p hs ds := htemp
  subst htemp2
  obtain ⟨-, -, -, -, -, -, -, h8⟩ := roundLists_aligned C p hs ds hC
  show (roundTempOut C p hs ds).height = 2 * hs.length
  unfold roundTempOut DataFrame.height
  simp [roundNewChats_length, h8]

/-- The result triple of one `stubA` round on the seeded frame. -/
def c3res : DataFrame × DataFrame × List ExpanderCall :=
  match roundStep stubA pW augmentedInit tempW with
  | .ok r => r
  | .error _ => (⟨[]⟩, ⟨[]⟩, [])

/-- C3 witness: the concrete round doubles 1 record into 2. -/
theorem C3_expansion_doubles_witness :
    LengthAligned stubA ∧ WorkingShape tempW ∧ AugShape augmentedInit ∧
    roundStep stubA pW augmentedInit tempW = .ok c3res ∧
    c3res.2.1.height = 2 * tempW.height ∧ tempW.height = 1 :=
  ⟨stubA_aligned, tempW_shape, augmentedInit_shape, rfl,
    C3_expansion_doubles stubA pW augmentedInit tempW c3res.1 c3res.2.1 c3res.2.2
      stubA_aligned augmentedInit_shape tempW_shape rfl, rfl⟩

/-- C4: every record produced by the expansion step is some parent
history from the working frame extended by exactly two turns, an
assistant turn followed by a user turn. -/
theorem C4_two_turns_appended (C : Collaborators) (p : KnowledgeParameter)
    (aug temp aug2 temp2 : DataFrame) (calls : List ExpanderCall)
    (hA : AugShape aug) (hT : WorkingShape temp)
    (h : roundStep C p aug temp = .ok (aug2, temp2, calls)) :
    ∀ c ∈ (temp2.col "chat_history").map Cell.asChat,
      ∃ h0 ∈ (temp.col "chat_history").map Cell.asChat,
        c.length = h0.length + 2 ∧
        (c.drop h0.length).map Turn.role = ["assistant", "user"] := by
  obtain ⟨a1, a2, a3, a4, a5, rfl, -, -, -, -⟩ := hA
  obtain ⟨hs, ds, rfl, -⟩ := hT
  obtain ⟨-, htemp, -⟩ := roundStep_ok_inv C p a1 a2 a3 a4 a5 hs ds _ h
  have htemp2 : temp2 = roundTempOut C p hs ds := htemp
  subst htemp2
  intro c hc
  have hc2 : c ∈ roundNewChats C p hs ds := by
    have : (roundTempOut C p hs ds).col "chat_history" =
        (roundNewChats C p hs ds).map Cell.chat := rfl
    rw [this, map_asChat_map_chat] at hc
    exact hc
  obtain ⟨h0, hh0, r, q, rfl⟩ := roundNewChats_mem C p hs ds c hc2
  refine ⟨h0, ?_, ?_, ?_⟩
  · exact hh0
  · simp
  · rw [List.drop_left]
    rfl

/-- C4 witness: the concrete round's two successors each extend the
single starter history by an assistant and a user turn. -/
theorem C4_two_turns_appended_witness :
    AugShape augmentedInit ∧ WorkingShape tempW ∧
    roundStep stubA pW augmentedInit tempW = .ok c3res ∧
    ∀ c ∈ (c3res.2.1.col "chat_history").map Cell.asChat,
      ∃ h0 ∈ (tempW.col "chat_history").map Cell.asChat,
        c.length = h0.length + 2 ∧
        (c.drop h0.length).map Turn.role = ["assistant", "user"] :=
  ⟨augmentedInit_shape, tempW_shape, rfl,
    C4_two_turns_appended stubA pW augmentedInit tempW c3res.1 c3res.2.1 c3res.2.2
      augmentedInit_shape tempW_shape rfl⟩

lemma sum_range_two_pow (N : Nat) :
    ∑ k ∈ Finset.range N, 2 ^ k = 2 ^ N - 1 := by
  induction N with
  | zero => rfl
  | succ N ih =>
    rw [Finset.sum_range_succ, ih, pow_succ]
    have := Nat.one_le_two_pow (n := N)
    omega

/-- C5: after `N` rounds from shaped frames, with aligned
collaborators, the run succeeds and the accumulator's record count has
grown by exactly the sum of the working-set sizes of rounds `0..N-1`
(`hs.length * 2^k` in round `k`), and each of its five columns has
only been appended to. -/
theorem C5_result_set_accumulates (C : Collaborators) (p : KnowledgeParameter)
    (hC : LengthAligned C) (N : Nat) (a1 a2 a3 a4 a5 hs ds : List Cell)
    (ha2 : a2.length = a1.length) (ha3 : a3.length = a1.length)
    (ha4 : a4.length = a1.length) (ha5 : a5.length = a1.length)
    (hhd : hs.length = ds.length) :
    ∃ b1 b2 b3 b4 b5 hs2 ds2 calls,
      runRounds C p N
        ⟨[("chat_history", a1), ("document", a2), ("slm_response", a3),
          ("llm_response", a4), ("scores", a5)]⟩
        ⟨[("chat_history", hs), ("document", ds)]⟩ =
        .ok (⟨[("chat_history", b1), ("document", b2), ("slm_response", b3),
          ("llm_response", b4), ("scores", b5)]⟩,
          ⟨[("chat_history", hs2), ("document", ds2)]⟩, calls) ∧
      b1.length = a1.length + ∑ k ∈ Finset.range N, hs.length * 2 ^ k ∧
      (∃ e1 e2 e3 e4 e5, b1 = a1 ++ e1 ∧ b2 = a2 ++ e2 ∧ b3 = a3 ++ e3 ∧
        b4 = a4 ++ e4 ∧ b5 = a5 ++ e5) := by
  obtain ⟨b1, b2, b3, b4, b5, hs2, ds2, calls, hrun, hb2, hb3, hb4, hb5, hlen2,
      hh2, hb1len, hext, -, -⟩ :=
    runRounds_aligned C p hC N a1 a2 a3 a4 a5 hs ds ha2 ha3 ha4 ha5 hhd
  refine ⟨b1, b2, b3, b4, b5, hs2, ds2, calls, hrun, ?_, hext⟩
  rw [hb1len, ← Finset.mul_sum, sum_range_two_pow]

/-- The `N = 2` state of a concrete aligned run. -/
def c5res : DataFrame × DataFrame × List ExpanderCall :=
  match runRounds stubA pW 2 augmentedInit tempW with
  | .ok r => r
  | .error _ => (⟨[]⟩, ⟨[]⟩, [])

/-- C5 witness: two concrete rounds accumulate 1 + 2 = 3 records. -/
theorem C5_result_set_accumulates_witness :
    LengthAligned stubA ∧
    (∃ b1 b2 b3 b4 b5 hs2 ds2 calls,
      runRounds stubA pW 2 augmentedInit tempW =
        .ok (⟨[("chat_history", b1), ("document", b2), ("slm_response", b3),
          ("llm_response", b4), ("scores", b5)]⟩,
          ⟨[("chat_history", hs2), ("document", ds2)]⟩, calls) ∧
      b1.length = ([] : List Cell).length +
        ∑ k ∈ Finset.range 2, [Cell.chat [⟨"user", "q0"⟩]].length * 2 ^ k ∧
      (∃ e1 e2 e3 e4 e5, b1 = [] ++ e1 ∧ b2 = [] ++ e2 ∧ b3 = [] ++ e3 ∧
        b4 = [] ++ e4 ∧ b5 = [] ++ e5)) ∧
    c5res.1.height = 3 :=
  ⟨stubA_aligned,
    C5_result_set_accumulates stubA pW stubA_aligned 2 [] [] [] [] []
      [Cell.chat [⟨"user", "q0"⟩]] [Cell.str "d1"] rfl rfl rfl rfl rfl,
    rfl⟩

/-- The working frame seeded by the `stub6`/`p6` run (two records). -/
def tempS6 : DataFrame :=
  ⟨[("chat_history", [Cell.chat [⟨"user", "q0"⟩], Cell.chat [⟨"user", "q1"⟩]]),
    ("document", [Cell.str "d1", Cell.str "d1"])]⟩

/-- The frame returned by the `stub6`/`p6` run. -/
def df6 : DataFrame :=
  match knowledge_pipeline stub6 p6 with
  | .ok df => df
  | .error _ => ⟨[]⟩

/-- C6 counterexample: the round operates on a 2-record working set,
the continuation expander returns length-1 arrays — disagreeing with
the batch size — yet the pipeline completes without any error,
silently zipping the mismatched arrays down to one tuple and returning
2 records instead of 4 (or a fatal error). -/
theorem C6_counterexample :
    seedWorking stub6 p6 = .ok tempS6 ∧
    tempS6.height = 2 ∧
    (stub6.generate_next_conversation "llm"
      [[⟨"user", "q0"⟩], [⟨"user", "q1"⟩]] ["slm", "slm"] ["d1", "d1"]
      ["d1"]).1.length = 1 ∧
    knowledge_pipeline stub6 p6 = .ok df6 ∧
    df6.height = 2 :=
  ⟨rfl, rfl, rfl, rfl, rfl⟩

/-- Stub collaborators whose response generator always returns a
unit-length array, which `with_columns` silently broadcasts. -/
def stub7 : Collaborators where
  build_knowledge_instruction i d := i ++ d
  generate_conversation_starter _ _ _ _ := [[⟨"user", "q0"⟩], [⟨"user", "q1"⟩]]
  build_chat_histories _ _ chs := chs
  generate_conversations_response m _ := [m]
  comparison_score _ chs _ _ := chs.map (fun _ => (1 : Int))
  generate_next_conversation _ chs _ _ _ :=
    (chs.map (fun _ => "q?"), chs.map (fun _ => "d1"))

/-- Stub collaborators whose response generator always returns three
responses, a length neither the batch size nor 1. -/
def stub9 : Collaborators where
  build_knowledge_instruction i d := i ++ d
  generate_conversation_starter _ _ _ _ := [[⟨"user", "q0"⟩], [⟨"user", "q1"⟩]]
  build_chat_histories _ _ chs := chs
  generate_conversations_response m _ := [m, m, m]
  comparison_score _ chs _ _ := chs.map (fun _ => (1 : Int))
  generate_next_conversation _ chs _ _ _ :=
    (chs.map (fun _ => "q?"), chs.map (fun _ => "d1"))

/-- C6 amended: length mismatches are not detected defensively. A
continuation-expander array of any wrong length is silently truncated
away by the zip, and a response or score array of length 1 is silently
broadcast to every row by `with_columns`; in both cases the round
completes. The round aborts — with the tabular library's shape error,
not a pipeline check — only when a response or score array has a
length that is neither the working-set height nor 1. -/
theorem C6_mismatch_detection (C : Collaborators) (p : KnowledgeParameter)
    (a1 a2 a3 a4 a5 hs ds : List Cell) :
    (((roundSlmR C p hs ds).length = hs.length ∨ (roundSlmR C p hs ds).length = 1) →
     ((roundLlmR C p hs ds).length = hs.length ∨ (roundLlmR C p hs ds).length = 1) →
     ((roundScores C p hs ds).length = hs.length ∨ (roundScores C p hs ds).length = 1) →
      ∃ aug2 calls, roundStep C p
        ⟨[("chat_history", a1), ("document", a2), ("slm_response", a3),
          ("llm_response", a4), ("scores", a5)]⟩
        ⟨[("chat_history", hs), ("document", ds)]⟩ =
        .ok (aug2, roundTempOut C p hs ds, calls)) ∧
    ((roundTempOut C p hs ds).height = 2 *
      min hs.length (min (roundSlmR C p hs ds).length
        (min (roundLlmR C p hs ds).length
          (min (roundSlmQD C p hs ds).1.length
            (min (roundLlmQD C p hs ds).1.length
              (min (roundSlmQD C p hs ds).2.length
                (roundLlmQD C p hs ds).2.length)))))) ∧
    ((¬ ((roundSlmR C p hs ds).length = hs.length ∨
         (roundSlmR C p hs ds).length = 1) ∨
      (((roundSlmR C p hs ds).length = hs.length ∨
        (roundSlmR C p hs ds).length = 1) ∧
       ¬ ((roundLlmR C p hs ds).length = hs.length ∨
          (roundLlmR C p hs ds).length = 1)) ∨
      (((roundSlmR C p hs ds).length = hs.length ∨
        (roundSlmR C p hs ds).length = 1) ∧
       ((roundLlmR C p hs ds).length = hs.length ∨
        (roundLlmR C p hs ds).length = 1) ∧
       ¬ ((roundScores C p hs ds).length = hs.length ∨
          (roundScores C p hs ds).length = 1))) →
      ∃ e, roundStep C p
        ⟨[("chat_history", a1), ("document", a2), ("slm_response", a3),
          ("llm_response", a4), ("scores", a5)]⟩
        ⟨[("chat_history", hs), ("document", ds)]⟩ = .error e) := by
  refine ⟨?_, ?_, ?_⟩
  · intro h1 h2 h3
    obtain ⟨v1, v2, v3, -, -, -, heq⟩ :=
      roundStep_ok_mixed C p a1 a2 a3 a4 a5 hs ds h1 h2 h3
    exact ⟨_, _, heq⟩
  · show ((roundNewChats C p hs ds).map Cell.chat).length = _
    rw [List.length_map, roundNewChats_length]
    unfold roundTuples
    rw [zip7_length, List.length_map]
  · rintro (h1 | ⟨h1, h2⟩ | ⟨h1, h2, h3⟩)
    · push_neg at h1
      exact ⟨_, roundStep_err_slm C p _ hs ds h1.1 h1.2⟩
    · push_neg at h2
      exact ⟨_, roundStep_err_llm C p _ hs ds h1 h2.1 h2.2⟩
    · push_neg at h3
      exact ⟨_, roundStep_err_scores C p _ hs ds h1 h2 h3.1 h3.2⟩

/-- C6 amended witness: against the same 2-record working set, the
`stub6` round succeeds despite its length-1 expander arrays
(truncation), the `stub7` round succeeds despite its length-1
response arrays (broadcast), and only the `stub9` round with length-3
response arrays aborts. -/
theorem C6_mismatch_detection_witness :
    (∃ aug2 calls, roundStep stub6 p6 augmentedInit tempS6 =
      .ok (aug2, roundTempOut stub6 p6
        (tempS6.col "chat_history") (tempS6.col "document"), calls)) ∧
    (∃ aug2 calls, roundStep stub7 p6 augmentedInit tempS6 =
      .ok (aug2, roundTempOut stub7 p6
        (tempS6.col "chat_history") (tempS6.col "document"), calls)) ∧
    (∃ e, roundStep stub9 p6 augmentedInit tempS6 = .error e) ∧
    (roundSlmR stub7 p6 (tempS6.col "chat_history") (tempS6.col "document")).length = 1 ∧
    (roundSlmR stub9 p6 (tempS6.col "chat_history") (tempS6.col "document")).length = 3 ∧
    tempS6.height = 2 :=
  ⟨(C6_mismatch_detection stub6 p6 [] [] [] [] []
      (tempS6.col "chat_history") (tempS6.col "document")).1
      (Or.inl rfl) (Or.inl rfl) (Or.inl rfl),
   (C6_mismatch_detection stub7 p6 [] [] [] [] []
      (tempS6.col "chat_history") (tempS6.col "document")).1
      (Or.inr rfl) (Or.inr rfl) (Or.inl rfl),
   (C6_mismatch_detection stub9 p6 [] [] [] [] []
      (tempS6.col "chat_history") (tempS6.col "document")).2.2
      (Or.inl (by decide)),
   rfl, rfl, rfl⟩

/-- C7 counterexample: with an empty document bank the seeded working
set is empty and degenerate, yet no error is raised before (or in) the
round loop — the pipeline completes and returns the empty two-column
frame. -/
theorem C7_counterexample :
    pEmpty.documents = [] ∧
    seedWorking stubA pEmpty = .ok ⟨[("chat_history", []), ("document", [])]⟩ ∧
    knowledge_pipeline stubA pEmpty = .ok ⟨[("chat_history", []), ("document", [])]⟩ :=
  ⟨rfl, rfl, rfl⟩

/-- C7 amended: the pipeline performs no empty-bank detection at all;
whenever seeding yields an empty working set (empty bank or zero
starters), a one-round run with aligned collaborators completes
without error and returns the empty two-column frame. -/
theorem C7_empty_bank_no_error (C : Collaborators) (p : KnowledgeParameter)
    (hC : LengthAligned C) (hmax : p.max_conversations = 1)
    (hseed : seedWorking C p = .ok ⟨[("chat_history", []), ("document", [])]⟩) :
    knowledge_pipeline C p = .ok ⟨[("chat_history", []), ("document", [])]⟩ := by
  obtain ⟨h1, h2, h3, -, -, -, -, -⟩ := roundLists_aligned C p [] [] hC
  have hstep := roundStep_eq_ok C p [] [] [] [] [] [] [] h1 h2 h3
  unfold knowledge_pipeline pipelineState augmentedInit
  rw [hseed, hmax]
  simp only [Bind.bind, Except.bind]
  rw [runRounds, hstep]
  simp only [runRounds, Bind.bind, Except.bind]
  rfl

/-- C7 amended witness: the concrete empty-bank run. -/
theorem C7_empty_bank_no_error_witness :
    LengthAligned stubA ∧ pEmpty.max_conversations = 1 ∧
    seedWorking stubA pEmpty = .ok ⟨[("chat_history", []), ("document", [])]⟩ ∧
    knowledge_pipeline stubA pEmpty = .ok ⟨[("chat_history", []), ("document", [])]⟩ :=
  ⟨stubA_aligned, rfl, rfl, C7_empty_bank_no_error stubA pEmpty stubA_aligned rfl rfl⟩

/-- C8: in every round of every successful aligned run, the pipeline
makes exactly two continuation-expander calls; the SLM-track call
carries the LLM model handle, the LLM-track call carries the SLM model
handle, and both carry the same SLM-generated responses (computed by
the SLM model from the round's built chat histories) — the model-role
swap and the reuse of SLM responses on the LLM track are present
exactly as observed. -/
theorem C8_expander_asymmetry (C : Collaborators) (p : KnowledgeParameter)
    (hC : LengthAligned C) (aug2 temp2 : DataFrame) (calls : List ExpanderCall)
    (h : pipelineState C p = .ok (aug2, temp2, calls)) :
    calls.length = 2 * p.max_conversations ∧
    ∀ j, j < p.max_conversations → ∃ chs dcs rs,
      calls[2 * j]? = some ⟨p.llm_model, chs, rs, dcs, p.documents⟩ ∧
      calls[2 * j + 1]? = some ⟨p.slm_model, chs, rs, dcs, p.documents⟩ ∧
      rs = C.generate_conversations_response p.slm_model
        (C.build_chat_histories p.conversation_personalization_instruction dcs chs) := by
  obtain ⟨hsL, dsL, hseed, hlenL, -⟩ := seedWorking_shape C p
  obtain ⟨b1, b2, b3, b4, b5, hs2, ds2, calls0, hrun, -, -, -, -, -, -, -, -,
      hclen, hcalls⟩ :=
    runRounds_aligned C p hC p.max_conversations [] [] [] [] [] hsL dsL
      rfl rfl rfl rfl hlenL
  unfold pipelineState augmentedInit at h
  rw [hseed] at h
  simp only [Bind.bind, Except.bind] at h
  rw [hrun] at h
  simp only [Except.ok.injEq, Prod.mk.injEq] at h
  obtain ⟨-, -, rfl⟩ := h
  exact ⟨hclen, hcalls⟩

/-- The final state of the concrete `stubA`/`pW` run. -/
def c8state : DataFrame × DataFrame × List ExpanderCall :=
  match pipelineState stubA pW with
  | .ok s => s
  | .error _ => (⟨[]⟩, ⟨[]⟩, [])

/-- C8 witness: the concrete run's expander-call log. -/
theorem C8_expander_asymmetry_witness :
    LengthAligned stubA ∧ pipelineState stubA pW = .ok c8state ∧
    (c8state.2.2.length = 2 * pW.max_conversations ∧
     ∀ j, j < pW.max_conversations → ∃ chs dcs rs,
       c8state.2.2[2 * j]? = some ⟨pW.llm_model, chs, rs, dcs, pW.documents⟩ ∧
       c8state.2.2[2 * j + 1]? = some ⟨pW.slm_model, chs, rs, dcs, pW.documents⟩ ∧
       rs = stubA.generate_conversations_response pW.slm_model
         (stubA.build_chat_histories pW.conversation_personalization_instruction
           dcs chs)) :=
  ⟨stubA_aligned, rfl,
    C8_expander_asymmetry stubA pW stubA_aligned c8state.1 c8state.2.1
      c8state.2.2 rfl⟩

/-- C9: if the continuation expander only proposes grounding documents
from the supplied bank, then after any number of rounds from the
seeded working set every document cell of the working frame is a bank
document verbatim (the seeder pairs each starter with its source
document verbatim by construction). -/
theorem C9_documents_from_bank (C : Collaborators) (p : KnowledgeParameter)
    (hB : DocsFromBank C) (N : Nat) (seed aug2 temp2 : DataFrame)
    (calls : List ExpanderCall)
    (hseed : seedWorking C p = .ok seed)
    (hrun : runRounds C p N augmentedInit seed = .ok (aug2, temp2, calls)) :
    ∀ c ∈ temp2.col "document", ∃ d ∈ p.documents, c = Cell.str d := by
  obtain ⟨hsL, dsL, hseed2, hlenL, hmem⟩ := seedWorking_shape C p
  rw [hseed2, Except.ok.injEq] at hseed
  subst hseed
  unfold augmentedInit at hrun
  obtain ⟨hs2, ds2, rfl, hdocs⟩ :=
    runRounds_ok_docs C p N [] [] [] [] [] hsL dsL aug2 temp2 calls hrun
  intro c hc
  exact hdocs hB hmem c hc

/-- The state after two rounds of the bank-respecting stub run. -/
def c9res : DataFrame × DataFrame × List ExpanderCall :=
  match runRounds stubB pW 2 augmentedInit tempW with
  | .ok r => r
  | .error _ => (⟨[]⟩, ⟨[]⟩, [])

/-- C9 witness: after two concrete rounds every working-set document
is the bank's sole document. -/
theorem C9_documents_from_bank_witness :
    DocsFromBank stubB ∧
    seedWorking stubB pW = .ok tempW ∧
    runRounds stubB pW 2 augmentedInit tempW = .ok c9res ∧
    ∀ c ∈ c9res.2.1.col "document", ∃ d ∈ pW.documents, c = Cell.str d :=
  ⟨stubB_bank, rfl, rfl,
    C9_documents_from_bank stubB pW stubB_bank 2 tempW c9res.1 c9res.2.1
      c9res.2.2 rfl rfl⟩

/-- C10: in an aligned round, the SLM-track successor of the
conversation at index `i` is placed at index `2i` of the expanded
working set and the LLM-track successor at index `2i+1` — adjacent,
SLM branch first, preserving parent order; the successor documents are
the track-selected documents at the same indices. -/
theorem C10_successor_indices (C : Collaborators) (p : KnowledgeParameter)
    (aug temp aug2 temp2 : DataFrame) (calls : List ExpanderCall)
    (hC : LengthAligned C) (hA : AugShape aug) (hT : WorkingShape temp)
    (h : roundStep C p aug temp = .ok (aug2, temp2, calls)) (i : Nat)
    (hi : i < temp.height) :
    ∃ parent sr lr sq lq sd ld,
      ((temp.col "chat_history").map Cell.asChat)[i]? = some parent ∧
      (roundSlmR C p (temp.col "chat_history") (temp.col "document"))[i]? = some sr ∧
      (roundLlmR C p (temp.col "chat_history") (temp.col "document"))[i]? = some lr ∧
      (roundSlmQD C p (temp.col "chat_history") (temp.col "document")).1[i]? = some sq ∧
      (roundLlmQD C p (temp.col "chat_history") (temp.col "document")).1[i]? = some lq ∧
      (roundSlmQD C p (temp.col "chat_history") (temp.col "document")).2[i]? = some sd ∧
      (roundLlmQD C p (temp.col "chat_history") (temp.col "document")).2[i]? = some ld ∧
      ((temp2.col "chat_history").map Cell.asChat)[2 * i]? =
        some (parent ++ [⟨"assistant", sr⟩, ⟨"user", sq⟩]) ∧
      ((temp2.col "chat_history").map Cell.asChat)[2 * i + 1]? =
        some (parent ++ [⟨"assistant", lr⟩, ⟨"user", lq⟩]) ∧
      ((temp2.col "document").map Cell.asStr)[2 * i]? = some sd ∧
      ((temp2.col "document").map Cell.asStr)[2 * i + 1]? = some ld := by
  obtain ⟨a1, a2, a3, a4, a5, rfl, -, -, -, -⟩ := hA
  obtain ⟨hs, ds, rfl, -⟩ := hT
  obtain ⟨-, htemp, -⟩ := roundStep_ok_inv C p a1 a2 a3 a4 a5 hs ds _ h
  have htemp2 : temp2 = roundTempOut C p hs ds := htemp
  subst htemp2
  obtain ⟨l1, l2, -, l4, l5, l6, l7, -⟩ := roundLists_aligned C p hs ds hC
  have hi' : i < hs.length := hi
  have b0 : i < (hs.map Cell.asChat).length := by
    rw [List.length_map]; exact hi'
  have b1 : i < (roundSlmR C p hs ds).length := by rw [l1]; exact hi'
  have b2 : i < (roundLlmR C p hs ds).length := by rw [l2]; exact hi'
  have b3 : i < (roundSlmQD C p hs ds).1.length := by rw [l4]; exact hi'
  have b4 : i < (roundLlmQD C p hs ds).1.length := by rw [l6]; exact hi'
  have b5 : i < (roundSlmQD C p hs ds).2.length := by rw [l5]; exact hi'
  have b6 : i < (roundLlmQD C p hs ds).2.length := by rw [l7]; exact hi'
  have htup : (roundTuples C p hs ds)[i]? = some
      ((hs.map Cell.asChat).get ⟨i, b0⟩, (roundSlmR C p hs ds).get ⟨i, b1⟩,
        (roundLlmR C p hs ds).get ⟨i, b2⟩, (roundSlmQD C p hs ds).1.get ⟨i, b3⟩,
        (roundLlmQD C p hs ds).1.get ⟨i, b4⟩, (roundSlmQD C p hs ds).2.get ⟨i, b5⟩,
        (roundLlmQD C p hs ds).2.get ⟨i, b6⟩) := by
    unfold roundTuples
    exact zip7_getElem_some (List.getElem?_eq_getElem b0)
      (List.getElem?_eq_getElem b1) (List.getElem?_eq_getElem b2)
      (List.getElem?_eq_getElem b3) (List.getElem?_eq_getElem b4)
      (List.getElem?_eq_getElem b5) (List.getElem?_eq_getElem b6)
  have hFc : ∀ t : ChatHistory × String × String × String × String × String × String,
      (fun (x : ChatHistory × String × String × String × String × String × String) =>
        match x with
        | (ch, sr, lr, sq, lq, _, _) =>
          [ch ++ [⟨"assistant", sr⟩, ⟨"user", sq⟩],
           ch ++ [⟨"assistant", lr⟩, ⟨"user", lq⟩]]) t =
      [(fun t => t.1 ++ [⟨"assistant", t.2.1⟩, ⟨"user", t.2.2.2.1⟩]) t,
       (fun t => t.1 ++ [⟨"assistant", t.2.2.1⟩, ⟨"user", t.2.2.2.2.1⟩]) t] := by
    rintro ⟨ch, sr, lr, sq, lq, sd, ld⟩
    rfl
  have hFd : ∀ t : ChatHistory × String × String × String × String × String × String,
      (fun (x : ChatHistory × String × String × String × String × String × String) =>
        match x with
        | (_, _, _, _, _, sd, ld) => [sd, ld]) t =
      [(fun t => t.2.2.2.2.2.1) t, (fun t => t.2.2.2.2.2.2) t] := by
    rintro ⟨ch, sr, lr, sq, lq, sd, ld⟩
    rfl
  have hc := flatMap_pair_getElem _ _ _ hFc (roundTuples C p hs ds) i
  have hd := flatMap_pair_getElem _ _ _ hFd (roundTuples C p hs ds) i
  refine ⟨(hs.map Cell.asChat).get ⟨i, b0⟩, (roundSlmR C p hs ds).get ⟨i, b1⟩,
    (roundLlmR C p hs ds).get ⟨i, b2⟩, (roundSlmQD C p hs ds).1.get ⟨i, b3⟩,
    (roundLlmQD C p hs ds).1.get ⟨i, b4⟩, (roundSlmQD C p hs ds).2.get ⟨i, b5⟩,
    (roundLlmQD C p hs ds).2.get ⟨i, b6⟩,
    List.getElem?_eq_getElem b0, List.getElem?_eq_getElem b1,
    List.getElem?_eq_getElem b2, List.getElem?_eq_getElem b3,
    List.getElem?_eq_getElem b4, List.getElem?_eq_getElem b5,
    List.getElem?_eq_getElem b6, ?_, ?_, ?_, ?_⟩
  · show (((roundNewChats C p hs ds).map Cell.chat).map Cell.asChat)[2 * i]? = _
    rw [map_asChat_map_chat]
    unfold roundNewChats
    rw [hc.1, htup]
    rfl
  · show (((roundNewChats C p hs ds).map Cell.chat).map Cell.asChat)[2 * i + 1]? = _
    rw [map_asChat_map_chat]
    unfold roundNewChats
    rw [hc.2, htup]
    rfl
  · show (((roundNewDocs C p hs ds).map Cell.str).map Cell.asStr)[2 * i]? = _
    rw [map_asStr_map_str]
    unfold roundNewDocs
    rw [hd.1, htup]
    rfl
  · show (((roundNewDocs C p hs ds).map Cell.str).map Cell.asStr)[2 * i + 1]? = _
    rw [map_asStr_map_str]
    unfold roundNewDocs
    rw [hd.2, htup]
    rfl

/-- C10 witness: the concrete round places the SLM successor of record
0 at index 0 and the LLM successor at index 1. -/
theorem C10_successor_indices_witness :
    LengthAligned stubA ∧ AugShape augmentedInit ∧ WorkingShape tempW ∧
    roundStep stubA pW augmentedInit tempW = .ok c3res ∧ 0 < tempW.height ∧
    (∃ parent sr lr sq lq sd ld,
      ((tempW.col "chat_history").map Cell.asChat)[0]? = some parent ∧
      (roundSlmR stubA pW (tempW.col "chat_history") (tempW.col "document"))[0]? = some sr ∧
      (roundLlmR stubA pW (tempW.col "chat_history") (tempW.col "document"))[0]? = some lr ∧
      (roundSlmQD stubA pW (tempW.col "chat_history") (tempW.col "document")).1[0]? = some sq ∧
      (roundLlmQD stubA pW (tempW.col "chat_history") (tempW.col "document")).1[0]? = some lq ∧
      (roundSlmQD stubA pW (tempW.col "chat_history") (tempW.col "document")).2[0]? = some sd ∧
      (roundLlmQD stubA pW (tempW.col "chat_history") (tempW.col "document")).2[0]? = some ld ∧
      ((c3res.2.1.col "chat_history").map Cell.asChat)[2 * 0]? =
        some (parent ++ [⟨"assistant", sr⟩, ⟨"user", sq⟩]) ∧
      ((c3res.2.1.col "chat_history").map Cell.asChat)[2 * 0 + 1]? =
        some (parent ++ [⟨"assistant", lr⟩, ⟨"user", lq⟩]) ∧
      ((c3res.2.1.col "document").map Cell.asStr)[2 * 0]? = some sd ∧
      ((c3res.2.1.col "document").map Cell.asStr)[2 * 0 + 1]? = some ld) :=
  ⟨stubA_aligned, augmentedInit_shape, tempW_shape, rfl, Nat.one_pos,
    C10_successor_indices stubA pW augmentedInit tempW c3res.1 c3res.2.1
      c3res.2.2 stubA_aligned augmentedInit_shape tempW_shape rfl 0 Nat.one_pos⟩
